import Mathlib

/-!
Verification of the Book-Craft-AI document assembly and packaging engine.

The definitions below are a shallow embedding of the repository's code:
  * the data model from src/types.ts,
  * the paginated layout produced by the PdfDocument component in src/App.tsx,
  * the rasterization driver handleDownloadPdf in src/App.tsx,
  * the chapter updater updateChapterInBook in src/App.tsx,
  * the EPUB packaging engine generateEpub from the epub service
    (src/unnamed/part_002), including formatParagraphs and
    fetchAndEncodeImage.

Browser facilities (fetch, Date, the regex engine) are modelled as an
explicit environment `Env`; JavaScript strings are modelled as Lean
`String`s, and the character-level functions (split on newline, trim) are
written out over `List Char` so that they match the JavaScript semantics
of `text.split('\n')` and `p.trim()` exactly.
-/

namespace BookCraft

/-- Data model, src/types.ts: one narrative unit with title, summary,
epigraph, content, and an illustration URL. -/
structure Chapter where
  title : String
  summary : String
  imagePrompt : String
  epigraph : String
  content : String
  imageUrl : String
deriving DecidableEq

/-- Data model, src/types.ts: the author record. -/
structure Author where
  name : String
  bio : String
  alsoByAuthor : List String
deriving DecidableEq

/-- Data model, src/types.ts: a main-character profile; the role union
type is modelled as a plain string. -/
structure CharacterProfile where
  name : String
  role : String
  description : String
deriving DecidableEq

/-- Data model, src/types.ts: the font pairing inside BookTheme. -/
structure FontPairing where
  heading : String
  body : String
  url : String
deriving DecidableEq

/-- Data model, src/types.ts: BookTheme. -/
structure BookTheme where
  fontPairing : FontPairing
  imageStyle : String
deriving DecidableEq

/-- Data model, src/types.ts: the root Book record. -/
structure Book where
  title : String
  author : Author
  publisher : String
  plotSummary : String
  preface : String
  dedication : String
  mainCharacters : List CharacterProfile
  coverImageUrl : String
  coverPrompt : String
  chapters : List Chapter
  backCoverBlurb : String
  theme : BookTheme
  kdpKeywords : List String
  kdpCategories : List String
deriving DecidableEq

/-! ## Character-level string operations

JavaScript's `text.split('\n')`, `p.trim()` and `array.join('\n')`,
written over `List Char` (the code-point sequence of the string). -/

/-- JavaScript `text.split('\n')` on the character list: splits at every
newline, keeping empty chunks, and yields `[[]]` on the empty list. -/
def splitNl : List Char → List (List Char)
  | [] => [[]]
  | c :: cs =>
    if c = '\n' then [] :: splitNl cs
    else
      match splitNl cs with
      | [] => [[c]]
      | l :: ls => (c :: l) :: ls

/-- Whitespace test used by `trimChars` (JavaScript `String.prototype.trim`). -/
def isWS (c : Char) : Bool := c.isWhitespace

/-- JavaScript `p.trim()` on the character list: drop leading and trailing
whitespace. -/
def trimChars (l : List Char) : List Char :=
  (((l.dropWhile isWS).reverse.dropWhile isWS)).reverse

/-- JavaScript `array.join('\n')` on character lists. -/
def joinNl : List (List Char) → List Char
  | [] => []
  | [l] => l
  | l :: ls => l ++ '\n' :: joinNl ls

/-- The paragraph wrapper of formatParagraphs (src/unnamed/part_002, line
30): an already-trimmed paragraph becomes a `p` element. -/
def wrapPara (p : List Char) : List Char :=
  "<p class=\"para\">".data ++ p ++ "</p>".data

/-- formatParagraphs (src/unnamed/part_002, lines 28-31): split the raw
text on newlines, drop blank lines, wrap each remaining trimmed line in a
`p` element and join with newlines; the empty string maps to itself. -/
def formatParagraphs (text : String) : String :=
  if text = "" then ""
  else
    ⟨joinNl (((splitNl text.data).filter
        (fun p => trimChars p ≠ [])).map (fun p => wrapPara (trimChars p)))⟩

/-- The paragraph segmentation underlying formatParagraphs: the trimmed
non-blank lines of the text, in order (the split/filter/trim part of
src/unnamed/part_002, lines 28-31, without the markup wrapper). -/
def paragraphsOf (text : String) : List (List Char) :=
  ((splitNl text.data).filter (fun p => trimChars p ≠ [])).map trimChars

/-! ## Paginated layout (PdfDocument, src/App.tsx lines 78-160)

The component renders, in order: a cover page, a dedication page, a table
of contents, a preface page, one page per chapter, an about-the-author
page and a back cover.  The running `pageCounter` starts at 1 on the
dedication page.  Each page is modelled by its kind, its header strings,
its footer page number, and the main text fragments of its body. -/

/-- Page kinds actually rendered by PdfDocument (src/App.tsx 78-160). -/
inductive PageKind where
  | cover
  | dedication
  | toc
  | preface
  | chapter (index : Nat)
  | authorBio
  | backCover
deriving DecidableEq

/-- One fixed-size page of the paginated layout. -/
structure Page where
  kind : PageKind
  headerLeft : Option String
  headerRight : Option String
  footerPageNumber : Option Nat
  body : List String
deriving DecidableEq

/-- Entries of the printed table of contents (src/App.tsx lines 101-107):
Preface, then `Chapter {i}: {title}` per chapter, then About the Author. -/
def pdfTocEntries (book : Book) : List String :=
  ["Preface"]
  ++ book.chapters.enum.map
      (fun q => "Chapter " ++ toString (q.1 + 1) ++ ": " ++ q.2.title)
  ++ ["About the Author"]

/-- The chapter page (src/App.tsx lines 122-133): header carries the book
title and `Chapter {i}`, the body carries the heading, the quoted
epigraph, the illustration when `imageUrl` is non-empty, and the content. -/
def chapterPage (bookTitle : String) (index : Nat) (ch : Chapter) : Page :=
  { kind := PageKind.chapter index
    headerLeft := some bookTitle
    headerRight := some ("Chapter " ++ toString (index + 1))
    footerPageNumber := some (4 + index)
    body := ["Chapter " ++ toString (index + 1) ++ ": " ++ ch.title,
             "\"" ++ ch.epigraph ++ "\""]
      ++ (if ch.imageUrl = "" then [] else [ch.imageUrl])
      ++ [ch.content] }

/-- layout (the page sequence rendered by PdfDocument, src/App.tsx lines
78-160): cover, dedication, table of contents, preface, the chapter
pages, about the author, back cover. -/
def layout (book : Book) : List Page :=
  [ { kind := PageKind.cover, headerLeft := none, headerRight := none,
      footerPageNumber := none, body := [book.coverImageUrl] },
    { kind := PageKind.dedication, headerLeft := none, headerRight := none,
      footerPageNumber := some 1, body := [book.dedication] },
    { kind := PageKind.toc, headerLeft := some "Table of Contents",
      headerRight := some "", footerPageNumber := some 2,
      body := "Table of Contents" :: pdfTocEntries book },
    { kind := PageKind.preface, headerLeft := some book.title,
      headerRight := some "Preface", footerPageNumber := some 3,
      body := ["Preface", book.preface] } ]
  ++ book.chapters.enum.map (fun q => chapterPage book.title q.1 q.2)
  ++ [ { kind := PageKind.authorBio, headerLeft := some book.title,
         headerRight := some "About the Author",
         footerPageNumber := some (4 + book.chapters.length),
         body := ["About the Author", book.author.name, book.author.bio]
           ++ (if book.author.alsoByAuthor = [] then []
               else ("Also by " ++ book.author.name) :: book.author.alsoByAuthor) },
       { kind := PageKind.backCover, headerLeft := none, headerRight := none,
         footerPageNumber := none, body := [book.backCoverBlurb] } ]

/-! ## Rasterization driver (handleDownloadPdf, src/App.tsx lines 249-271)

The driver walks the rendered page elements (skipping the leading style
element), awaits `html2canvas` for each page one at a time, adds the
captured image to the document, and saves the document only after every
page succeeded; a throw from any capture lands in the catch block, which
sets a single error message and never saves. -/

/-- One sequential pass over the pages: capture each page in order and
collect the images; the first capture failure aborts the pass. -/
def renderPages {α : Type} (capture : Page → Except String α) :
    List Page → Except String (List α)
  | [] => Except.ok []
  | p :: ps => do
    let img ← capture p
    let rest ← renderPages capture ps
    pure (img :: rest)

/-- The sequence of pages on which `capture` is actually invoked by the
sequential loop: every page before the first failure, then the failing
page itself, and nothing after it. -/
def captureTrace {α : Type} (capture : Page → Except String α) :
    List Page → List Page
  | [] => []
  | p :: ps =>
    match capture p with
    | Except.ok _ => p :: captureTrace capture ps
    | Except.error _ => [p]

/-- Title sanitization used for download filenames
(`book.title.replace(/\s/g, '_')`, src/App.tsx lines 264 and 280). -/
def sanitizeTitle (title : String) : String :=
  ⟨title.data.map (fun c => if c.isWhitespace then '_' else c)⟩

/-- Outcome of a download handler: the saved file name, if any, and the
error message shown to the user, if any. -/
structure DownloadOutcome where
  savedFile : Option String
  errorMessage : Option String
deriving DecidableEq

/-- The error message set by handleDownloadPdf's catch block
(src/App.tsx line 267). -/
def pdfErrorMessage : String := "Sorry, there was an error creating the PDF."

/-- handleDownloadPdf (src/App.tsx lines 249-271): rasterize the layout
in order; on success save `{sanitized title}.pdf`, on any capture failure
set exactly one error message and save nothing. -/
def handleDownloadPdf {α : Type} (capture : Page → Except String α)
    (book : Book) : DownloadOutcome :=
  match renderPages capture (layout book) with
  | Except.ok _ => { savedFile := some (sanitizeTitle book.title ++ ".pdf"),
                     errorMessage := none }
  | Except.error _ => { savedFile := none, errorMessage := some pdfErrorMessage }

/-! ## Chapter updater (updateChapterInBook, src/App.tsx lines 176-183)

`updateChapterInBook(chapterIndex, updatedData)` copies the chapter list,
replaces the entry at `chapterIndex` by the spread
`{ ...oldChapter, ...updatedData }`, and rebuilds the book with the new
list; `Partial<Chapter>` is modelled by a record of options. -/

/-- A `Partial<Chapter>`: each field is either absent or supplies a new
value. -/
structure ChapterPatch where
  title : Option String
  summary : Option String
  imagePrompt : Option String
  epigraph : Option String
  content : Option String
  imageUrl : Option String
deriving DecidableEq

/-- The object spread `{ ...ch, ...p }`: fields present in the patch
override the old chapter. -/
def applyPatch (ch : Chapter) (p : ChapterPatch) : Chapter :=
  { title := p.title.getD ch.title
    summary := p.summary.getD ch.summary
    imagePrompt := p.imagePrompt.getD ch.imagePrompt
    epigraph := p.epigraph.getD ch.epigraph
    content := p.content.getD ch.content
    imageUrl := p.imageUrl.getD ch.imageUrl }

/-- updateChapterInBook (src/App.tsx lines 176-183) for an index inside
the chapter list (the only case the application exercises): replace
chapter `chapterIndex` by the patched chapter, keep everything else. -/
def updateChapterInBook (book : Book) (chapterIndex : Nat)
    (updatedData : ChapterPatch) : Book :=
  { book with chapters :=
      (book.chapters.set chapterIndex
        (applyPatch (book.chapters.getD chapterIndex ⟨"", "", "", "", "", ""⟩)
          updatedData)) }

/-! ## E-book packaging engine (src/unnamed/part_002)

`generateEpub` runs in the browser: it fetches the cover image, every
chapter image and (best-effort) the font files with `fetch`, and reads
the clock for the copyright year and the modification timestamp.  These
ambient capabilities are modelled by an explicit environment `Env`; the
regex extraction of font URLs from the fetched Google-Fonts stylesheet is
modelled by the environment's `cssMatch` function.  The JSZip archive is
modelled as the ordered list of entries in the order the source adds
them; an entry records its path, its content and the compression option
explicitly passed for it (the source passes one only for `mimetype`). -/

/-- A settled `fetch` response: HTTP status, body bytes, the body decoded
as text (for `response.text()`), and the blob's reported content type. -/
structure HttpResponse where
  status : Nat
  body : List Nat
  bodyText : String
  blobType : String
deriving DecidableEq

/-- The ambient browser environment: `fetch` (an `Except` models promise
rejection, which happens on network failure only — an error HTTP status
still resolves), the font-URL regex match, and the clock. -/
structure Env where
  fetch : String → Except String HttpResponse
  cssMatch : String → String → Option String
  currentYear : Nat
  nowIso : String

/-- Result of fetchAndEncodeImage: payload bytes, reported mime type and
the derived file extension. -/
structure EncodedImage where
  data : List Nat
  mimeType : String
  ext : String
deriving DecidableEq

/-- The extension rule `mimeType.split('/')[1] || 'jpeg'`
(src/unnamed/part_002, line 9). -/
def extOfMime (mimeType : String) : String :=
  match (mimeType.splitOn "/")[1]? with
  | some e => if e = "" then "jpeg" else e
  | none => "jpeg"

/-- fetchAndEncodeImage (src/unnamed/part_002, lines 4-11): await the
fetch, read the blob, and return its bytes with the blob's content type
and the derived extension.  The response status is never inspected. -/
def fetchAndEncodeImage (env : Env) (url : String) : Except String EncodedImage := do
  let response ← env.fetch url
  pure ⟨response.body, response.blobType, extOfMime response.blobType⟩

/-- Content of one archive entry: a text file or a binary payload. -/
inductive EntryData where
  | text (s : String)
  | binary (b : List Nat)
deriving DecidableEq

/-- The explicit compression option of a JSZip `file` call; the source
only ever passes STORE (for the mimetype entry). -/
inductive Compression where
  | store
deriving DecidableEq

/-- One entry of the produced archive, in insertion order: full path,
content, and the compression option explicitly passed (none means the
library default). -/
structure ZipEntry where
  name : String
  content : EntryData
  compression : Option Compression
deriving DecidableEq

/-- `await Promise.all(list.map(f))` for an already-settled `f`: collect
every result, failing if any element fails. -/
def awaitAll {α β : Type} (f : α → Except String β) :
    List α → Except String (List β)
  | [] => Except.ok []
  | a :: as => do
    let b ← f a
    let bs ← awaitAll f as
    pure (b :: bs)

/-- META-INF/container.xml (src/unnamed/part_002, lines 40-46). -/
def containerXML : String :=
  "<?xml version=\"1.0\" encoding=\"UTF-8\"?>
<container version=\"1.0\" xmlns=\"urn:oasis:names:tc:opendocument:xmlns:container\">
  <rootfiles>
    <rootfile full-path=\"OEBPS/content.opf\" media-type=\"application/oebps-package+xml\"/>
  </rootfiles>
</container>"

/-- createXHTML (src/unnamed/part_002, lines 13-26). -/
def createXHTML (title : String) (bodyContent : String) (headContent : String) : String :=
  "<?xml version=\"1.0\" encoding=\"UTF-8\"?>
<!DOCTYPE html>
<html xmlns=\"http://www.w3.org/1999/xhtml\" xmlns:epub=\"http://www.idpf.org/2007/ops\" xml:lang=\"en\" lang=\"en\">
<head>
  <title>" ++ title ++ "</title>
  <link href=\"../css/style.css\" rel=\"stylesheet\" type=\"text/css\" />
  " ++ headContent ++ "
</head>
<body>
  " ++ bodyContent ++ "
</body>
</html>"

/-- The fontCss template (src/unnamed/part_002, lines 56-70): two
font-face rules naming the theme's families and the fixed embedded font
paths.  This block is emitted into the stylesheet unconditionally. -/
def fontCss (book : Book) : String :=
  "
        @font-face \x7b
            font-family: \"" ++ book.theme.fontPairing.heading ++ "\";
            src: url(../fonts/heading.woff2) format(\x27woff2\x27);
            font-weight: normal;
            font-style: normal;
        \x7d
        @font-face \x7b
            font-family: \"" ++ book.theme.fontPairing.body ++ "\";
            src: url(../fonts/body.woff2) format(\x27woff2\x27);
            font-weight: normal;
            font-style: normal;
        \x7d
    "

/-- Content of OEBPS/css/style.css (src/unnamed/part_002, lines 87-107):
the font-face block, then the body rule whose font-family falls back to
generic `serif`, the heading rule falling back to `sans-serif`, and the
fixed layout rules. -/
def styleCss (book : Book) : String :=
  "\n        " ++ fontCss book
  ++ "\n        body \x7b font-family: "
  ++ ("\"" ++ book.theme.fontPairing.body ++ "\", serif")
  ++ "; line-height: 1.6; margin: 1em; \x7d\n        h1, h2, h3 \x7b font-family: \""
  ++ book.theme.fontPairing.heading
  ++ "\", sans-serif; text-align: center; line-height: 1.2; margin-top: 1.5em; margin-bottom: 1em; page-break-before: always; page-break-after: avoid; \x7d
        h1 \x7b font-size: 2.5em; \x7d
        h2 \x7b font-size: 2em; \x7d
        h3 \x7b font-size: 1.5em; text-align: left; \x7d
        p.para \x7b margin: 0 0 1em 0; text-align: justify; text-indent: 1.5em; \x7d
        img \x7b max-width: 100%; height: auto; display: block; margin: 1.5em auto; \x7d
        .cover-image \x7b width: 100%; height: auto; \x7d
        .title-page \x7b text-align: center; margin: 5em 0; page-break-before: always; \x7d
        .copyright-page \x7b font-size: 0.8em; color: #555; margin: 2em; page-break-before: always; \x7d
        .copyright-page p \x7b text-indent: 0; \x7d
        .dedication \x7b text-align: center; font-style: italic; margin: 10em 2em; page-break-before: always; \x7d
        .epigraph \x7b font-style: italic; color: #555; margin: 3em 2em 3em 2em; text-align: left; text-indent: 0; \x7d
        .toc \x7b list-style-type: none; padding: 0; \x7d
        .toc li a \x7b text-decoration: none; color: inherit; \x7d
        .character-profile \x7b margin-bottom: 1.5em; \x7d
        .character-profile h3 \x7b margin-bottom: 0.25em; \x7d
        .character-profile p \x7b text-indent: 0 !important; \x7d
    "

/-- The entries of the HTML table of contents tocHTML
(src/unnamed/part_002, lines 118-125), as (href, label) pairs in document
order: Dramatis Personae, Preface, one entry per chapter reading
`Chapter {i}: {title}`, then About the Author. -/
def epubTocEntries (book : Book) : List (String × String) :=
  [("dramatis-personae.xhtml", "Dramatis Personae"),
   ("preface.xhtml", "Preface")]
  ++ book.chapters.enum.map (fun q =>
      ("chapter_" ++ toString (q.1 + 1) ++ ".xhtml",
       "Chapter " ++ toString (q.1 + 1) ++ ": " ++ q.2.title))
  ++ [("author.xhtml", "About the Author")]

/-- The tocHTML string template (src/unnamed/part_002, lines 118-125). -/
def tocHTML (book : Book) : String :=
  "<h1>Table of Contents</h1>
    <ol class=\"toc\">
      <li><a href=\"dramatis-personae.xhtml\">Dramatis Personae</a></li>
      <li><a href=\"preface.xhtml\">Preface</a></li>
      " ++ String.join (book.chapters.enum.map (fun q =>
        "<li><a href=\"chapter_" ++ toString (q.1 + 1) ++ ".xhtml\">Chapter "
        ++ toString (q.1 + 1) ++ ": " ++ q.2.title ++ "</a></li>")) ++ "
      <li><a href=\"author.xhtml\">About the Author</a></li>
    </ol>"

/-- The charactersHTML template (src/unnamed/part_002, lines 129-136). -/
def charactersHTML (book : Book) : String :=
  "<h2>Dramatis Personae</h2>
    " ++ String.join (book.mainCharacters.map (fun char =>
      "
      <div class=\"character-profile\">
        <h3>" ++ char.name ++ " <em>- " ++ char.role ++ "</em></h3>
        <p>" ++ char.description ++ "</p>
      </div>
    "))

/-- The per-chapter body template (src/unnamed/part_002, lines 156-160):
heading, quoted epigraph, the embedded image, and the re-flowed content. -/
def chapterBodyHTML (index : Nat) (chapter : Chapter) (ext : String) : String :=
  "<h2>Chapter " ++ toString (index + 1) ++ ": " ++ chapter.title ++ "</h2>
        <div class=\"epigraph\">\"" ++ chapter.epigraph ++ "\"</div>
        <img src=\"../images/chapter_" ++ toString (index + 1) ++ "." ++ ext
  ++ "\" alt=\"" ++ chapter.title ++ "\" />
        " ++ formatParagraphs chapter.content

/-- One itemref of the OPF spine. -/
structure SpineRef where
  idref : String
  linear : Bool
deriving DecidableEq

/-- The spine of the package document (src/unnamed/part_002, lines
203-212), in order: the cover marked `linear="no"`, then title page,
copyright, dedication, toc, dramatis personae, preface, one itemref per
chapter, and author. -/
def spineItems (book : Book) : List SpineRef :=
  [⟨"cover", false⟩, ⟨"title-page", true⟩, ⟨"copyright", true⟩,
   ⟨"dedication", true⟩, ⟨"toc", true⟩, ⟨"dramatis-personae", true⟩,
   ⟨"preface", true⟩]
  ++ (List.range book.chapters.length).map
      (fun i => ⟨"chapter_" ++ toString (i + 1), true⟩)
  ++ [⟨"author", true⟩]

/-- The idrefs of the linear (readable-in-order) spine entries. -/
def spineLinearIdrefs (book : Book) : List String :=
  ((spineItems book).filter (fun r => r.linear)).map SpineRef.idref

/-- The hrefs listed by the navigation document, in document order. -/
def navHrefs (book : Book) : List String :=
  (epubTocEntries book).map Prod.fst

/-- The navPoints of the legacy NCX navigation document
(src/unnamed/part_002, lines 178-188), as (playOrder, label, src)
triples in document order: Cover, Title Page, Table of Contents,
Dramatis Personae, Dedication, Preface, the chapters, About the Author. -/
def ncxNavPoints (book : Book) : List (Nat × String × String) :=
  [(1, "Cover", "text/cover.xhtml"),
   (2, "Title Page", "text/title-page.xhtml"),
   (3, "Table of Contents", "text/toc.xhtml"),
   (4, "Dramatis Personae", "text/dramatis-personae.xhtml"),
   (5, "Dedication", "text/dedication.xhtml"),
   (6, "Preface", "text/preface.xhtml")]
  ++ book.chapters.enum.map (fun q =>
      (q.1 + 7, "Chapter " ++ toString (q.1 + 1) ++ ": " ++ q.2.title,
       "text/chapter_" ++ toString (q.1 + 1) ++ ".xhtml"))
  ++ [(book.chapters.length + 7, "About the Author", "text/author.xhtml")]

/-- The src targets of the legacy NCX navigation, in document order. -/
def ncxSrcs (book : Book) : List String :=
  (ncxNavPoints book).map (fun p => p.2.2)

/-- The manifestItems template of the package document
(src/unnamed/part_002, lines 165-181). -/
def manifestItemsStr (book : Book) (coverInfo : EncodedImage)
    (chapterInfos : List EncodedImage) : String :=
  "
        <item id=\"css\" href=\"css/style.css\" media-type=\"text/css\"/>
        <item id=\"heading-font\" href=\"fonts/heading.woff2\" media-type=\"font/woff2\" />
        <item id=\"body-font\" href=\"fonts/body.woff2\" media-type=\"font/woff2\" />
        <item id=\"cover\" href=\"text/cover.xhtml\" media-type=\"application/xhtml+xml\"/>
        <item id=\"title-page\" href=\"text/title-page.xhtml\" media-type=\"application/xhtml+xml\"/>
        <item id=\"copyright\" href=\"text/copyright.xhtml\" media-type=\"application/xhtml+xml\"/>
        <item id=\"dedication\" href=\"text/dedication.xhtml\" media-type=\"application/xhtml+xml\"/>
        <item id=\"toc\" href=\"text/toc.xhtml\" media-type=\"application/xhtml+xml\" properties=\"nav\"/>
        <item id=\"dramatis-personae\" href=\"text/dramatis-personae.xhtml\" media-type=\"application/xhtml+xml\"/>
        <item id=\"preface\" href=\"text/preface.xhtml\" media-type=\"application/xhtml+xml\"/>
        " ++ String.join ((List.range book.chapters.length).map (fun i =>
          "<item id=\"chapter_" ++ toString (i + 1) ++ "\" href=\"text/chapter_"
          ++ toString (i + 1) ++ ".xhtml\" media-type=\"application/xhtml+xml\"/>")) ++ "
        <item id=\"author\" href=\"text/author.xhtml\" media-type=\"application/xhtml+xml\"/>
        <item id=\"cover-image\" href=\"images/cover." ++ coverInfo.ext
  ++ "\" media-type=\"" ++ coverInfo.mimeType ++ "\" properties=\"cover-image\"/>
        " ++ String.join (chapterInfos.enum.map (fun q =>
          "<item id=\"img_chapter_" ++ toString (q.1 + 1) ++ "\" href=\"images/chapter_"
          ++ toString (q.1 + 1) ++ "." ++ q.2.ext ++ "\" media-type=\""
          ++ q.2.mimeType ++ "\"/>")) ++ "
        <item id=\"ncx\" href=\"toc.ncx\" media-type=\"application/x-dtbncx+xml\"/>
    "

/-- The spineItems template of the package document
(src/unnamed/part_002, lines 203-212). -/
def spineItemsStr (book : Book) : String :=
  "
        <itemref idref=\"cover\" linear=\"no\"/>
        <itemref idref=\"title-page\"/>
        <itemref idref=\"copyright\"/>
        <itemref idref=\"dedication\"/>
        <itemref idref=\"toc\"/>
        <itemref idref=\"dramatis-personae\"/>
        <itemref idref=\"preface\"/>
        " ++ String.join ((List.range book.chapters.length).map (fun i =>
          "<itemref idref=\"chapter_" ++ toString (i + 1) ++ "\"/>")) ++ "
        <itemref idref=\"author\"/>
    "

/-- The content.opf package document (src/unnamed/part_002, lines
213-230): metadata, manifest and spine. -/
def contentOPF (env : Env) (book : Book) (coverInfo : EncodedImage)
    (chapterInfos : List EncodedImage) : String :=
  "<?xml version=\"1.0\" encoding=\"UTF-8\"?>
<package version=\"3.0\" unique-identifier=\"BookId\" xmlns=\"http://www.idpf.org/2007/opf\">
  <metadata xmlns:dc=\"http://purl.org/dc/elements/1.1/\" xmlns:opf=\"http://www.idpf.org/2007/opf\">
    <dc:title>" ++ book.title ++ "</dc:title>
    <dc:creator id=\"creator\">" ++ book.author.name ++ "</dc:creator>
    <meta refines=\"#creator\" property=\"role\" scheme=\"marc:relators\">aut</meta>
    <dc:description>" ++ book.backCoverBlurb ++ "</dc:description>
    <dc:language>en</dc:language>
    <meta property=\"dcterms:modified\">" ++ env.nowIso ++ "</meta>
  </metadata>
  <manifest>" ++ manifestItemsStr book coverInfo chapterInfos ++ "</manifest>
  <spine toc=\"ncx\">" ++ spineItemsStr book ++ "</spine>
</package>"

/-- The navPoints template of toc.ncx (src/unnamed/part_002, lines
233-242). -/
def navPointsStr (book : Book) : String :=
  "
        <navPoint id=\"navPoint-1\" playOrder=\"1\"><navLabel><text>Cover</text></navLabel><content src=\"text/cover.xhtml\"/></navPoint>
        <navPoint id=\"navPoint-2\" playOrder=\"2\"><navLabel><text>Title Page</text></navLabel><content src=\"text/title-page.xhtml\"/></navPoint>
        <navPoint id=\"navPoint-3\" playOrder=\"3\"><navLabel><text>Table of Contents</text></navLabel><content src=\"text/toc.xhtml\"/></navPoint>
        <navPoint id=\"navPoint-4\" playOrder=\"4\"><navLabel><text>Dramatis Personae</text></navLabel><content src=\"text/dramatis-personae.xhtml\"/></navPoint>
        <navPoint id=\"navPoint-5\" playOrder=\"5\"><navLabel><text>Dedication</text></navLabel><content src=\"text/dedication.xhtml\"/></navPoint>
        <navPoint id=\"navPoint-6\" playOrder=\"6\"><navLabel><text>Preface</text></navLabel><content src=\"text/preface.xhtml\"/></navPoint>
        " ++ String.join (book.chapters.enum.map (fun q =>
          "<navPoint id=\"navPoint-" ++ toString (q.1 + 7) ++ "\" playOrder=\""
          ++ toString (q.1 + 7) ++ "\"><navLabel><text>Chapter " ++ toString (q.1 + 1)
          ++ ": " ++ q.2.title
          ++ "</text></navLabel><content src=\"text/chapter_" ++ toString (q.1 + 1)
          ++ ".xhtml\"/></navPoint>")) ++ "
        <navPoint id=\"navPoint-" ++ toString (book.chapters.length + 7)
  ++ "\" playOrder=\"" ++ toString (book.chapters.length + 7)
  ++ "\"><navLabel><text>About the Author</text></navLabel><content src=\"text/author.xhtml\"/></navPoint>
    "

/-- The toc.ncx document (src/unnamed/part_002, lines 243-257). -/
def tocNCX (book : Book) : String :=
  "<?xml version=\"1.0\" encoding=\"UTF-8\"?>
<!DOCTYPE ncx PUBLIC \"-//NISO//DTD ncx 2005-1//EN\" \"http://www.daisy.org/z3986/2005/ncx-2005-1.dtd\">
<ncx version=\"2005-1\" xmlns=\"http://www.daisy.org/z3986/2005/ncx/\">
  <head>
    <meta name=\"dtb:uid\" content=\"BookId\"/>
    <meta name=\"dtb:depth\" content=\"1\"/>
    <meta name=\"dtb:totalPageCount\" content=\"0\"/>
    <meta name=\"dtb:maxPageNumber\" content=\"0\"/>
  </head>
  <docTitle><text>" ++ book.title ++ "</text></docTitle>
  <navMap>" ++ navPointsStr book ++ "</navMap>
</ncx>"

/-- The try/catch block that fetches and embeds the fonts
(src/unnamed/part_002, lines 72-85): fetch the Google-Fonts stylesheet,
extract the two font URLs with a regex, fetch both font files, and emit
the two font entries; any rejection is caught, logged, and yields no
entries (the stylesheet keeps its generic fallback). -/
def tryEmbedFonts (env : Env) (book : Book) : List ZipEntry :=
  let attempt : Except String (List ZipEntry) := do
    let fontUrlResponse ← env.fetch book.theme.fontPairing.url
    let fontUrlCss := fontUrlResponse.bodyText
    match env.cssMatch fontUrlCss book.theme.fontPairing.heading,
          env.cssMatch fontUrlCss book.theme.fontPairing.body with
    | some headingFontUrl, some bodyFontUrl =>
      if headingFontUrl ≠ "" ∧ bodyFontUrl ≠ "" then do
        let headingFontFile ← env.fetch headingFontUrl
        let bodyFontFile ← env.fetch bodyFontUrl
        pure [⟨"OEBPS/fonts/heading.woff2", EntryData.binary headingFontFile.body, none⟩,
              ⟨"OEBPS/fonts/body.woff2", EntryData.binary bodyFontFile.body, none⟩]
      else pure []
    | _, _ => pure []
  match attempt with
  | Except.ok es => es
  | Except.error _ => []

/-- The archive entries produced by generateEpub (src/unnamed/part_002,
lines 33-227) once the cover image and the chapter images have been
fetched, in the exact order the source adds files to the zip: mimetype,
container.xml, the (possibly empty) font entries, style.css, the cover
image and the section documents, the per-chapter image/document pairs,
author, content.opf, toc.ncx.  The construction is pure; the source
interleaves it with the two awaits, but the entry contents depend only
on the book, the environment's clock, and the two fetched results. -/
def epubEntriesList (env : Env) (book : Book) (coverImageInfo : EncodedImage)
    (chapterImageInfos : List EncodedImage) : List ZipEntry :=
  let mimetypeEntry : ZipEntry :=
    ⟨"mimetype", EntryData.text "application/epub+zip", some Compression.store⟩
  let containerEntry : ZipEntry :=
    ⟨"META-INF/container.xml", EntryData.text containerXML, none⟩
  let fontEntries := tryEmbedFonts env book
  let cssEntry : ZipEntry :=
    ⟨"OEBPS/css/style.css", EntryData.text (styleCss book), none⟩
  let coverImageEntry : ZipEntry :=
    ⟨"OEBPS/images/cover." ++ coverImageInfo.ext,
     EntryData.binary coverImageInfo.data, none⟩
  let coverPageEntry : ZipEntry :=
    ⟨"OEBPS/text/cover.xhtml",
     EntryData.text (createXHTML "Cover"
       ("<div class=\"cover-container\"><img src=\"../images/cover."
         ++ coverImageInfo.ext
         ++ "\" alt=\"Cover Image\" class=\"cover-image\"/></div>") ""), none⟩
  let titlePageEntry : ZipEntry :=
    ⟨"OEBPS/text/title-page.xhtml",
     EntryData.text (createXHTML book.title
       ("<div class=\"title-page\"><h1>" ++ book.title ++ "</h1><h3>by</h3><h2>"
         ++ book.author.name ++ "</h2><br/><br/><p>" ++ book.publisher
         ++ "</p></div>") ""), none⟩
  let copyrightEntry : ZipEntry :=
    ⟨"OEBPS/text/copyright.xhtml",
     EntryData.text (createXHTML "Copyright"
       ("<div class=\"copyright-page\"><p>Copyright &copy; "
         ++ toString env.currentYear ++ " by " ++ book.author.name
         ++ "</p><p>Published by " ++ book.publisher
         ++ "</p><br/><p>All rights reserved.</p></div>") ""), none⟩
  let dedicationEntry : ZipEntry :=
    ⟨"OEBPS/text/dedication.xhtml",
     EntryData.text (createXHTML "Dedication"
       ("<div class=\"dedication\"><p>" ++ book.dedication ++ "</p></div>") ""), none⟩
  let tocEntry : ZipEntry :=
    ⟨"OEBPS/text/toc.xhtml",
     EntryData.text (createXHTML "Table of Contents" (tocHTML book) ""), none⟩
  let dramatisEntry : ZipEntry :=
    ⟨"OEBPS/text/dramatis-personae.xhtml",
     EntryData.text (createXHTML "Dramatis Personae" (charactersHTML book) ""), none⟩
  let prefaceEntry : ZipEntry :=
    ⟨"OEBPS/text/preface.xhtml",
     EntryData.text (createXHTML "Preface"
       ("<h2>Preface</h2>" ++ formatParagraphs book.preface) ""), none⟩
  let chapterEntries : List ZipEntry :=
    ((book.chapters.zip chapterImageInfos).enum.map (fun q =>
      [(⟨"OEBPS/images/chapter_" ++ toString (q.1 + 1) ++ "." ++ q.2.2.ext,
         EntryData.binary q.2.2.data, none⟩ : ZipEntry),
       ⟨"OEBPS/text/chapter_" ++ toString (q.1 + 1) ++ ".xhtml",
        EntryData.text (createXHTML q.2.1.title
          (chapterBodyHTML q.1 q.2.1 q.2.2.ext) ""), none⟩])).flatten
  let authorEntry : ZipEntry :=
    ⟨"OEBPS/text/author.xhtml",
     EntryData.text (createXHTML "About the Author"
       ("<h2>About the Author</h2><h3>" ++ book.author.name ++ "</h3>"
         ++ formatParagraphs book.author.bio) ""), none⟩
  let opfEntry : ZipEntry :=
    ⟨"OEBPS/content.opf",
     EntryData.text (contentOPF env book coverImageInfo chapterImageInfos), none⟩
  let ncxEntry : ZipEntry :=
    ⟨"OEBPS/toc.ncx", EntryData.text (tocNCX book), none⟩
  [mimetypeEntry, containerEntry] ++ fontEntries
    ++ [cssEntry, coverImageEntry, coverPageEntry, titlePageEntry, copyrightEntry,
        dedicationEntry, tocEntry, dramatisEntry, prefaceEntry]
    ++ chapterEntries
    ++ [authorEntry, opfEntry, ncxEntry]

/-- generateEpub (src/unnamed/part_002, lines 33-227): fetch and encode
the cover image, fetch and encode every chapter image with Promise.all,
and return the archive.  These two awaits are the only substeps whose
rejection rejects the whole call (font embedding is caught inside
`tryEmbedFonts`); on rejection no archive value is produced and the book
record, a plain argument, is untouched. -/
def generateEpub (env : Env) (book : Book) : Except String (List ZipEntry) := do
  let coverImageInfo ← fetchAndEncodeImage env book.coverImageUrl
  let chapterImageInfos ← awaitAll (fun ch => fetchAndEncodeImage env ch.imageUrl)
    book.chapters
  pure (epubEntriesList env book coverImageInfo chapterImageInfos)

/-! ## Concrete sample inputs for the closed theorems -/

/-- A sample theme whose font stylesheet lives at a fixed URL. -/
def sampleTheme : BookTheme :=
  ⟨⟨"HeadFont", "BodyFont", "https://fonts.example/css"⟩, "watercolor"⟩

/-- A sample author. -/
def sampleAuthor : Author := ⟨"A. N. Author", "Writes books.", []⟩

/-- A book with an empty chapter list. -/
def emptyBook : Book :=
  { title := "Empty Book", author := sampleAuthor, publisher := "Pub House",
    plotSummary := "", preface := "Hello.", dedication := "For you.",
    mainCharacters := [], coverImageUrl := "https://img.example/cover",
    coverPrompt := "", chapters := [], backCoverBlurb := "Blurb.",
    theme := sampleTheme, kdpKeywords := [], kdpCategories := [] }

/-- Sample chapter one. -/
def sampleChapterOne : Chapter :=
  ⟨"The Door", "sum1", "ip1", "Quote one.", "It began.", "https://img.example/ch1"⟩

/-- Sample chapter two. -/
def sampleChapterTwo : Chapter :=
  ⟨"The Key", "sum2", "ip2", "Quote two.", "It ended.", "https://img.example/ch2"⟩

/-- A book with one chapter. -/
def oneChapterBook : Book :=
  { emptyBook with title := "One Chapter", chapters := [sampleChapterOne] }

/-- A book with two chapters. -/
def twoChapterBook : Book :=
  { emptyBook with
    title := "Two Chapters"
    chapters := [sampleChapterOne, sampleChapterTwo] }

/-- A successful image response. -/
def okResponse : HttpResponse := ⟨200, [137, 80, 78, 71], "", "image/png"⟩

/-- An environment in which every fetch resolves successfully. -/
def envAllOk : Env :=
  { fetch := fun _ => Except.ok okResponse,
    cssMatch := fun _ _ => none,
    currentYear := 2025, nowIso := "2025-01-01T00:00:00Z" }

/-- An environment in which the font stylesheet URL is unreachable but
every other fetch resolves. -/
def envFontDown : Env :=
  { fetch := fun url =>
      if url = sampleTheme.fontPairing.url then Except.error "net::ERR_FAILED"
      else Except.ok okResponse,
    cssMatch := fun _ _ => none,
    currentYear := 2025, nowIso := "2025-01-01T00:00:00Z" }

/-- An environment in which chapter one's image URL rejects and every
other fetch resolves. -/
def envCh1Down : Env :=
  { fetch := fun url =>
      if url = "https://img.example/ch1" then Except.error "net::ERR_FAILED"
      else Except.ok okResponse,
    cssMatch := fun _ _ => none,
    currentYear := 2025, nowIso := "2025-01-01T00:00:00Z" }

/-- An environment in which every fetch resolves, but with an HTTP 404
response (a promise rejection happens only on network failure, so the
fetch still succeeds). -/
def env404 : Env :=
  { fetch := fun _ =>
      Except.ok ⟨404, [60, 104, 116], "<html>Not Found</html>", "text/html"⟩,
    cssMatch := fun _ _ => none,
    currentYear := 2025, nowIso := "2025-01-01T00:00:00Z" }

/-- An environment whose every fetch rejects. -/
def envDown : Env :=
  { fetch := fun _ => Except.error "net::ERR_CONNECTION_REFUSED",
    cssMatch := fun _ _ => none,
    currentYear := 2025, nowIso := "2025-01-01T00:00:00Z" }

/-- A rasterizer stub that throws on the table-of-contents page (the
third page of every layout) and succeeds elsewhere. -/
def captureFailToc : Page → Except String Nat :=
  fun p => if p.kind = PageKind.toc then Except.error "canvas error" else Except.ok 0

/-- A chapter patch supplying only new content. -/
def samplePatch : ChapterPatch := ⟨none, none, none, none, some "New content.", none⟩

/-! ## Helper lemmas -/

/-- Decidable equality for `Except`, for the concrete witnesses. -/
instance {ε α : Type} [DecidableEq ε] [DecidableEq α] :
    DecidableEq (Except ε α) := fun a b =>
  match a, b with
  | Except.ok x, Except.ok y =>
    if h : x = y then isTrue (by rw [h]) else isFalse (by intro hc; cases hc; exact h rfl)
  | Except.error x, Except.error y =>
    if h : x = y then isTrue (by rw [h]) else isFalse (by intro hc; cases hc; exact h rfl)
  | Except.ok _, Except.error _ => isFalse (by intro hc; cases hc)
  | Except.error _, Except.ok _ => isFalse (by intro hc; cases hc)

/-- String concatenation is associative. -/
theorem strAppendAssoc (a b c : String) : a ++ b ++ c = a ++ (b ++ c) := by
  apply String.ext
  simp [String.data_append]

/-- Two strings differing at some character position differ. -/
theorem stringNeOfData (s t : String) (i : Nat) (h : s.data[i]? ≠ t.data[i]?) :
    s ≠ t :=
  fun he => h (by rw [he])

/-- `isOk` on a success. -/
theorem isOkOk {ε α : Type} (a : α) : (Except.ok a : Except ε α).isOk = true := rfl

/-- `isOk` on a failure. -/
theorem isOkError {ε α : Type} (e : ε) :
    (Except.error e : Except ε α).isOk = false := rfl

/-- Bind on a success. -/
theorem exceptBindOk {ε α β : Type} (a : α) (f : α → Except ε β) :
    (Except.ok a : Except ε α) >>= f = f a := rfl

/-- Bind on a failure. -/
theorem exceptBindError {ε α β : Type} (e : ε) (f : α → Except ε β) :
    (Except.error e : Except ε α) >>= f = Except.error e := rfl

/-- Mapping a function of the index over an enumeration is mapping it
over the index range. -/
theorem enumMapFst {α β : Type} (l : List α) (g : Nat → β) :
    l.enum.map (fun q => g q.1) = (List.range l.length).map g := by
  have h : (fun q : Nat × α => g q.1) = g ∘ Prod.fst := rfl
  rw [h, ← List.map_map, List.enum_map_fst]

/-- `awaitAll` succeeds when every element succeeds. -/
theorem awaitAllOk {α β : Type} (f : α → Except String β) (l : List α)
    (h : ∀ a ∈ l, (f a).isOk = true) : ∃ bs, awaitAll f l = Except.ok bs := by
  induction l with
  | nil => exact ⟨[], rfl⟩
  | cons a as ih =>
    have ha := h a (by simp)
    cases hfa : f a with
    | error e => rw [hfa, isOkError] at ha; exact absurd ha (by simp)
    | ok b =>
      obtain ⟨bs, hbs⟩ := ih (fun x hx => h x (by simp [hx]))
      exact ⟨b :: bs, by simp [awaitAll, hfa, hbs, exceptBindOk]⟩

/-- `awaitAll` fails when some element fails. -/
theorem awaitAllError {α β : Type} (f : α → Except String β) (l : List α)
    (h : ∃ a ∈ l, (f a).isOk = false) : ∃ e, awaitAll f l = Except.error e := by
  induction l with
  | nil => obtain ⟨a, ha, _⟩ := h; exact absurd ha (by simp)
  | cons b as ih =>
    cases hfb : f b with
    | error e => exact ⟨e, by simp [awaitAll, hfb, exceptBindError]⟩
    | ok v =>
      obtain ⟨a, ha, hfa⟩ := h
      rcases List.mem_cons.mp ha with rfl | hmem
      · rw [hfb, isOkOk] at hfa; exact absurd hfa (by simp)
      · obtain ⟨e, he⟩ := ih ⟨a, hmem, hfa⟩
        exact ⟨e, by simp [awaitAll, hfb, he, exceptBindOk, exceptBindError]⟩

/-- When `awaitAll` succeeds, every element succeeded. -/
theorem awaitAllOkForall {α β : Type} (f : α → Except String β) :
    ∀ (l : List α) (bs : List β), awaitAll f l = Except.ok bs →
      ∀ a ∈ l, (f a).isOk = true := by
  intro l
  induction l with
  | nil => intro bs _ a ha; exact absurd ha (by simp)
  | cons b as ih =>
    intro bs h a ha
    cases hfb : f b with
    | error e => rw [awaitAll, hfb, exceptBindError] at h; exact absurd h (by simp)
    | ok v =>
      rw [awaitAll, hfb, exceptBindOk] at h
      cases hr : awaitAll f as with
      | error e => rw [hr, exceptBindError] at h; exact absurd h (by simp)
      | ok rest =>
        rcases List.mem_cons.mp ha with rfl | hmem
        · rw [hfb]; rfl
        · exact ih rest hr a hmem

/-! ## Claim C1: page count and order of the paginated layout -/

/-- Claim C1 counterexample: claim C1 states that the layout of a book
with n chapters has exactly n + 8 pages (including title and copyright
pages); on the concrete book with no chapters the paginated layout has 6
pages, not 0 + 8. -/
theorem layoutEmptyBookNotEightPages :
    (layout emptyBook).length ≠ emptyBook.chapters.length + 8 := by decide

/-- Claim C1 (amended): for every Book with n chapters the paginated
layout produces exactly n + 6 pages of fixed kinds in the exact order
cover, dedication, table of contents, preface, the n chapter pages (in
chapter order), author bio, back cover; the paginated layout has no
title page and no copyright page. -/
theorem layoutPageKinds (book : Book) :
    (layout book).map Page.kind
      = [PageKind.cover, PageKind.dedication, PageKind.toc, PageKind.preface]
        ++ (List.range book.chapters.length).map PageKind.chapter
        ++ [PageKind.authorBio, PageKind.backCover]
  ∧ (layout book).length = book.chapters.length + 6 := by
  constructor
  · have hmid : (book.chapters.enum.map (fun q => chapterPage book.title q.1 q.2)).map
        Page.kind = (List.range book.chapters.length).map PageKind.chapter := by
      rw [List.map_map]
      exact enumMapFst book.chapters PageKind.chapter
    simp only [layout, List.map_append, hmid, List.map_cons, List.map_nil]
  · simp [layout, List.length_append]

/-! ## Claim C8: table-of-contents entries -/

/-- Claim C8: for every book with n chapters and every i < n, the i-th
chapter entry of the table of contents reads `Chapter {i+1}: {title}` in
both the paginated layout's ToC (at position i+1, after the leading
Preface entry) and the e-book navigation document (at position i+2,
after Dramatis Personae and Preface); the chapter entries appear in
chapter order at consecutive positions, and the Preface and
About-the-Author entries bracket the chapter list. -/
theorem tocEntryReads (book : Book) (i : Nat) (h : i < book.chapters.length) :
    (pdfTocEntries book)[i + 1]?
      = some ("Chapter " ++ toString (i + 1) ++ ": " ++ book.chapters[i].title)
  ∧ ((epubTocEntries book)[i + 2]?).map Prod.snd
      = some ("Chapter " ++ toString (i + 1) ++ ": " ++ book.chapters[i].title)
  ∧ (pdfTocEntries book)[0]? = some "Preface"
  ∧ (pdfTocEntries book).getLast? = some "About the Author"
  ∧ (epubTocEntries book)[1]? = some ("preface.xhtml", "Preface")
  ∧ (epubTocEntries book).getLast? = some ("author.xhtml", "About the Author")
  ∧ (pdfTocEntries book).length = book.chapters.length + 2
  ∧ (epubTocEntries book).length = book.chapters.length + 3 := by
  refine ⟨?_, ?_, ?_, ?_, ?_, ?_, ?_, ?_⟩
  · show (["Preface"] ++ _ ++ ["About the Author"])[i + 1]? = _
    rw [List.append_assoc, List.getElem?_append]
    rw [if_neg (by simp)]
    simp only [List.length_cons, List.length_nil, Nat.add_sub_cancel]
    rw [List.getElem?_append, if_pos (by simp [h]), List.getElem?_map,
       List.getElem?_enum, List.getElem?_eq_getElem h]
    rfl
  · show ((([("dramatis-personae.xhtml", "Dramatis Personae"),
      ("preface.xhtml", "Preface")] ++ _ ++ _)[i + 2]?).map Prod.snd) = _
    rw [List.append_assoc, List.getElem?_append]
    rw [if_neg (by simp)]
    simp only [List.length_cons, List.length_nil]
    have h2 : i + 2 - 2 = i := by omega
    rw [h2, List.getElem?_append, if_pos (by simp [h]), List.getElem?_map,
       List.getElem?_enum, List.getElem?_eq_getElem h]
    rfl
  · simp [pdfTocEntries]
  · exact List.getLast?_concat _
  · simp [epubTocEntries]
  · exact List.getLast?_concat _
  · simp [pdfTocEntries]
  · simp [epubTocEntries]

/-- Claim C8 witness at a concrete book and index. -/
theorem tocEntryReadsWitness :
    (0 < oneChapterBook.chapters.length)
  ∧ (pdfTocEntries oneChapterBook)[1]? = some "Chapter 1: The Door" :=
  ⟨by decide, (tocEntryReads oneChapterBook 0 (by decide)).1⟩

/-! ## Claim C3: spine versus navigation documents -/

/-- Closed form of the linear spine idrefs. -/
theorem spineLinearIdrefsEq (book : Book) :
    spineLinearIdrefs book
      = ["title-page", "copyright", "dedication", "toc", "dramatis-personae",
         "preface"]
        ++ (List.range book.chapters.length).map
            (fun i => "chapter_" ++ toString (i + 1))
        ++ ["author"] := by
  unfold spineLinearIdrefs spineItems
  rw [List.filter_append, List.filter_append, List.map_append, List.map_append]
  have h2 : List.filter (fun r : SpineRef => r.linear)
      ((List.range book.chapters.length).map
        (fun i => ⟨"chapter_" ++ toString (i + 1), true⟩))
      = (List.range book.chapters.length).map
          (fun i => (⟨"chapter_" ++ toString (i + 1), true⟩ : SpineRef)) := by
    rw [List.filter_eq_self]
    intro a ha
    rcases List.mem_map.mp ha with ⟨i, _, rfl⟩
    rfl
  rw [h2, List.map_map]
  rfl

/-- Closed form of the navigation-document hrefs. -/
theorem navHrefsEq (book : Book) :
    navHrefs book
      = ["dramatis-personae.xhtml", "preface.xhtml"]
        ++ (List.range book.chapters.length).map
            (fun i => "chapter_" ++ toString (i + 1) ++ ".xhtml")
        ++ ["author.xhtml"] := by
  have hmid : List.map (Prod.fst ∘ fun q : Nat × Chapter =>
        ("chapter_" ++ toString (q.1 + 1) ++ ".xhtml",
         "Chapter " ++ toString (q.1 + 1) ++ ": " ++ q.2.title)) book.chapters.enum
      = (List.range book.chapters.length).map
          (fun i => "chapter_" ++ toString (i + 1) ++ ".xhtml") :=
    enumMapFst book.chapters (fun i => "chapter_" ++ toString (i + 1) ++ ".xhtml")
  unfold navHrefs epubTocEntries
  rw [List.map_append, List.map_append, List.map_map, hmid]
  simp

/-- Closed form of the legacy-navigation src targets. -/
theorem ncxSrcsEq (book : Book) :
    ncxSrcs book
      = ["text/cover.xhtml", "text/title-page.xhtml", "text/toc.xhtml",
         "text/dramatis-personae.xhtml", "text/dedication.xhtml",
         "text/preface.xhtml"]
        ++ (List.range book.chapters.length).map
            (fun i => "text/chapter_" ++ toString (i + 1) ++ ".xhtml")
        ++ ["text/author.xhtml"] := by
  have hmid : List.map ((fun p : Nat × String × String => p.2.2) ∘
        fun q : Nat × Chapter =>
        (q.1 + 7, "Chapter " ++ toString (q.1 + 1) ++ ": " ++ q.2.title,
         "text/chapter_" ++ toString (q.1 + 1) ++ ".xhtml")) book.chapters.enum
      = (List.range book.chapters.length).map
          (fun i => "text/chapter_" ++ toString (i + 1) ++ ".xhtml") :=
    enumMapFst book.chapters (fun i => "text/chapter_" ++ toString (i + 1) ++ ".xhtml")
  unfold ncxSrcs ncxNavPoints
  rw [List.map_append, List.map_append, List.map_map, hmid]
  simp

/-- The first entry of the legacy navigation. -/
theorem ncxHead (book : Book) : (ncxSrcs book)[0]? = some "text/cover.xhtml" := by
  rw [ncxSrcsEq]; rfl

/-- The first entry of the linear spine mapped to src targets. -/
theorem spineMappedHead (book : Book) :
    ((spineLinearIdrefs book).map (fun s => "text/" ++ s ++ ".xhtml"))[0]?
      = some ("text/" ++ "title-page" ++ ".xhtml") := by
  rw [spineLinearIdrefsEq]; rfl

/-- No chapter src target is the copyright src target (they differ at
character position 6). -/
theorem chapterSrcNeCopyright (u : String) :
    "text/chapter_" ++ u ++ ".xhtml" ≠ "text/copyright.xhtml" := by
  apply stringNeOfData _ _ 6
  have h1 : ("text/chapter_" ++ u ++ ".xhtml").data[6]? = some 'h' := by
    rw [String.data_append, String.data_append, List.append_assoc,
       List.getElem?_append]
    rw [if_pos (by decide)]
    decide
  rw [h1]
  decide

/-- Claim C3 counterexample: on a concrete one-chapter book the
navigation document does not list the same sections as the readable
(linear) spine, and the legacy navigation document does not list the
same sections as the navigation document. -/
theorem navSpineCounterexample :
    navHrefs oneChapterBook
        ≠ (spineLinearIdrefs oneChapterBook).map (fun s => s ++ ".xhtml")
  ∧ ncxSrcs oneChapterBook ≠ (navHrefs oneChapterBook).map (fun s => "text/" ++ s) := by
  constructor
  · decide
  · decide

/-- Claim C3 (amended): the spine lists the cover first, marked
non-linear, and every other section linear, in the fixed order
title-page, copyright, dedication, toc, dramatis personae, preface, the
chapters in order, author.  The navigation document lists only dramatis
personae, preface, the chapters and author — an order-preserving strict
subsequence of the linear spine (n + 3 of its n + 7 sections), not all
of them.  The legacy navigation document lists n + 7 sections, so not
the same sections as the navigation document; it is not in linear-spine
order (it starts with the cover, then title page, then the table of
contents before the dedication), and it omits the copyright section
entirely. -/
theorem spineNavStructure (book : Book) :
    (spineItems book)[0]? = some ⟨"cover", false⟩
  ∧ (∀ r ∈ (spineItems book).tail, r.linear = true)
  ∧ List.Sublist (navHrefs book) ((spineLinearIdrefs book).map (fun s => s ++ ".xhtml"))
  ∧ navHrefs book ≠ (spineLinearIdrefs book).map (fun s => s ++ ".xhtml")
  ∧ (navHrefs book).length = book.chapters.length + 3
  ∧ (ncxSrcs book).length = book.chapters.length + 7
  ∧ ncxSrcs book ≠ (spineLinearIdrefs book).map (fun s => "text/" ++ s ++ ".xhtml")
  ∧ (∀ s ∈ ncxSrcs book, s ≠ "text/copyright.xhtml") := by
  have l1 : (navHrefs book).length = book.chapters.length + 3 := by
    rw [navHrefsEq]; simp
  have l2 : ((spineLinearIdrefs book).map (fun s => s ++ ".xhtml")).length
      = book.chapters.length + 7 := by
    rw [List.length_map, spineLinearIdrefsEq]; simp
  refine ⟨?_, ?_, ?_, ?_, l1, ?_, ?_, ?_⟩
  · simp [spineItems]
  · intro r hr
    simp only [spineItems, List.cons_append, List.tail_cons, List.nil_append] at hr
    simp only [List.mem_cons, List.mem_append, List.mem_map, List.mem_range,
      List.not_mem_nil, or_false] at hr
    rcases hr with rfl | rfl | rfl | rfl | rfl | rfl | ⟨i, _, rfl⟩ | rfl <;> rfl
  · rw [navHrefsEq, spineLinearIdrefsEq, List.map_append, List.map_append,
       List.map_map]
    refine List.Sublist.append (List.Sublist.append ?_ ?_) ?_
    · decide
    · exact List.Sublist.refl _
    · decide
  · intro heq
    rw [heq, l2] at l1
    omega
  · rw [ncxSrcsEq]; simp
  · intro heq
    have h0 := congrArg (fun l => l[0]?) heq
    simp only [ncxHead, spineMappedHead] at h0
    exact absurd h0 (by decide)
  · intro s hs
    rw [ncxSrcsEq] at hs
    rcases List.mem_append.mp hs with hs1 | hs2
    · rcases List.mem_append.mp hs1 with hs3 | hs4
      · simp only [List.mem_cons, List.not_mem_nil, or_false] at hs3
        rcases hs3 with rfl | rfl | rfl | rfl | rfl | rfl <;> decide
      · rcases List.mem_map.mp hs4 with ⟨i, _, rfl⟩
        exact chapterSrcNeCopyright (toString (i + 1))
    · simp only [List.mem_cons, List.not_mem_nil, or_false] at hs2
      subst hs2
      decide

/-! ## Claim C2: paragraph re-flow -/

/-- splitNl never returns the empty list. -/
theorem splitNlNeNil : ∀ l : List Char, splitNl l ≠ [] := by
  intro l
  induction l with
  | nil => simp [splitNl]
  | cons c cs ih =>
    simp only [splitNl]
    by_cases h : c = '\n'
    · simp [h]
    · rw [if_neg h]
      cases hs : splitNl cs with
      | nil => simp
      | cons a as => simp

/-- No chunk produced by splitNl contains a newline. -/
theorem splitNlNoNl : ∀ (l : List Char), ∀ p ∈ splitNl l, '\n' ∉ p := by
  intro l
  induction l with
  | nil =>
    intro p hp
    simp only [splitNl, List.mem_cons, List.not_mem_nil, or_false] at hp
    subst hp
    simp
  | cons c cs ih =>
    intro p hp
    simp only [splitNl] at hp
    by_cases h : c = '\n'
    · rw [if_pos h] at hp
      rcases List.mem_cons.mp hp with rfl | hmem
      · simp
      · exact ih p hmem
    · rw [if_neg h] at hp
      cases hs : splitNl cs with
      | nil => exact absurd hs (splitNlNeNil cs)
      | cons a as =>
        rw [hs] at hp
        simp only [List.mem_cons] at hp
        rcases hp with rfl | hmem
        · intro hmm
          rcases List.mem_cons.mp hmm with h1 | h2
          · exact h h1.symm
          · exact ih a (by rw [hs]; simp) h2
        · exact ih p (by rw [hs]; simp [hmem])

/-- Splitting a newline-free list yields the single chunk. -/
theorem splitNlSingle (l : List Char) (h : '\n' ∉ l) : splitNl l = [l] := by
  induction l with
  | nil => rfl
  | cons c cs ih =>
    have hc : c ≠ '\n' := fun hcc => h (by simp [hcc])
    have hcs : '\n' ∉ cs := fun hm => h (by simp [hm])
    simp only [splitNl, if_neg hc, ih hcs]

/-- Splitting a newline-free chunk glued before a newline peels it off. -/
theorem splitNlAppendNl (l s : List Char) (h : '\n' ∉ l) :
    splitNl (l ++ '\n' :: s) = l :: splitNl s := by
  induction l with
  | nil => simp [splitNl]
  | cons c cs ih =>
    have hc : c ≠ '\n' := fun hcc => h (by simp [hcc])
    have hcs : '\n' ∉ cs := fun hm => h (by simp [hm])
    simp only [List.cons_append, splitNl, if_neg hc, List.append_eq]
    rw [ih hcs]

/-- Splitting the newline-join of newline-free chunks recovers them. -/
theorem splitNlJoinNl : ∀ (ps : List (List Char)), ps ≠ [] →
    (∀ p ∈ ps, '\n' ∉ p) → splitNl (joinNl ps) = ps := by
  intro ps
  induction ps with
  | nil => intro h; exact absurd rfl h
  | cons p ps ih =>
    intro _ hnl
    cases ps with
    | nil => exact splitNlSingle p (hnl p (by simp))
    | cons q qs =>
      have h1 : joinNl (p :: q :: qs) = p ++ '\n' :: joinNl (q :: qs) := rfl
      rw [h1, splitNlAppendNl p _ (hnl p (by simp))]
      rw [ih (by simp) (fun x hx => hnl x (by simp [hx]))]

/-- The head of a dropWhile does not satisfy the predicate. -/
theorem dropWhileHeadFalse (p : Char → Bool) (l : List Char) :
    ∀ c, (l.dropWhile p).head? = some c → p c = false := by
  induction l with
  | nil => intro c hc; simp [List.dropWhile] at hc
  | cons a as ih =>
    intro c hc
    by_cases h : p a
    · rw [List.dropWhile_cons_of_pos h] at hc
      exact ih c hc
    · rw [List.dropWhile_cons_of_neg h] at hc
      simp only [List.head?_cons, Option.some.injEq] at hc
      subst hc
      simpa using h

/-- dropWhile is the identity when the head fails the predicate. -/
theorem dropWhileEqSelf (p : Char → Bool) (l : List Char)
    (h : ∀ c, l.head? = some c → p c = false) : l.dropWhile p = l := by
  cases l with
  | nil => rfl
  | cons a as =>
    have ha := h a rfl
    rw [List.dropWhile_cons_of_neg (by simp [ha])]

/-- dropWhile keeps the last element when its result is non-empty. -/
theorem getLastDropWhile (p : Char → Bool) (l : List Char)
    (h : l.dropWhile p ≠ []) : (l.dropWhile p).getLast? = l.getLast? := by
  induction l with
  | nil => simp [List.dropWhile] at h
  | cons a as ih =>
    by_cases hp : p a
    · rw [List.dropWhile_cons_of_pos hp] at h ⊢
      rw [ih h]
      cases as with
      | nil => simp [List.dropWhile] at h
      | cons b bs => simp [List.getLast?_cons_cons]
    · rw [List.dropWhile_cons_of_neg hp]

/-- A trimmed list starts with a non-whitespace character. -/
theorem trimHead (l : List Char) :
    ∀ c, (trimChars l).head? = some c → isWS c = false := by
  intro c hc
  unfold trimChars at hc
  rw [List.head?_reverse] at hc
  by_cases hne : (((l.dropWhile isWS).reverse).dropWhile isWS) = []
  · rw [hne] at hc; simp at hc
  · rw [getLastDropWhile isWS _ hne] at hc
    rw [List.getLast?_reverse] at hc
    exact dropWhileHeadFalse isWS l c hc

/-- A trimmed list ends with a non-whitespace character. -/
theorem trimGetLast (l : List Char) :
    ∀ c, (trimChars l).getLast? = some c → isWS c = false := by
  intro c hc
  unfold trimChars at hc
  rw [List.getLast?_reverse] at hc
  exact dropWhileHeadFalse isWS _ c hc

/-- Trimming is the identity on lists with non-whitespace ends. -/
theorem trimEqSelf (l : List Char)
    (h1 : ∀ c, l.head? = some c → isWS c = false)
    (h2 : ∀ c, l.getLast? = some c → isWS c = false) : trimChars l = l := by
  unfold trimChars
  rw [dropWhileEqSelf isWS l h1]
  rw [dropWhileEqSelf isWS l.reverse
    (fun c hc => h2 c (by rwa [List.head?_reverse] at hc))]
  exact List.reverse_reverse l

/-- Trimming is idempotent. -/
theorem trimIdem (l : List Char) : trimChars (trimChars l) = trimChars l :=
  trimEqSelf _ (trimHead l) (trimGetLast l)

/-- Every character of a trimmed list comes from the original list. -/
theorem memTrim (l : List Char) : ∀ c ∈ trimChars l, c ∈ l := by
  intro c hc
  unfold trimChars at hc
  rw [List.mem_reverse] at hc
  have h1 := (List.dropWhile_sublist isWS).subset hc
  rw [List.mem_reverse] at h1
  exact (List.dropWhile_sublist isWS).subset h1

/-- Every paragraph of the segmentation is trimmed, non-empty and
newline-free. -/
theorem paragraphsMemProps (t : String) :
    ∀ p ∈ paragraphsOf t, trimChars p = p ∧ p ≠ [] ∧ '\n' ∉ p := by
  intro p hp
  unfold paragraphsOf at hp
  rcases List.mem_map.mp hp with ⟨q, hq, rfl⟩
  have hqf := List.mem_filter.mp hq
  have hnl : '\n' ∉ q := splitNlNoNl t.data q hqf.1
  refine ⟨trimIdem q, ?_, ?_⟩
  · simpa using hqf.2
  · intro hm
    exact hnl (memTrim q '\n' hm)

/-- Filtering and re-trimming already-trimmed non-empty paragraphs is a
no-op. -/
theorem filterMapTrimId : ∀ ps : List (List Char),
    (∀ p ∈ ps, trimChars p = p ∧ p ≠ []) →
    (ps.filter (fun p => trimChars p ≠ [])).map trimChars = ps := by
  intro ps
  induction ps with
  | nil => intro _; rfl
  | cons p ps ih =>
    intro h
    obtain ⟨ht, hne⟩ := h p (by simp)
    rw [List.filter_cons, if_pos (by simp [ht, hne])]
    simp only [List.map_cons, ht]
    rw [ih (fun x hx => h x (by simp [hx]))]

/-- Claim C2 counterexample: re-flowing the already re-flowed text "a"
wraps the paragraph in a second paragraph element, so the re-flow
function of the code is not idempotent. -/
theorem formatParagraphsNotIdempotent :
    formatParagraphs (formatParagraphs "a") ≠ formatParagraphs "a" := by decide

/-- Claim C2 (amended): the full re-flow is not idempotent — re-applying
it wraps every already-wrapped paragraph in a second paragraph element —
but the paragraph segmentation underlying it is idempotent: re-splitting
the newline-join of the segmentation's trimmed non-blank paragraphs
returns exactly the same paragraphs, and on non-empty input the re-flow
output is exactly those paragraphs wrapped and joined. -/
theorem paragraphSplitIdempotent (t : String) :
    paragraphsOf ⟨joinNl (paragraphsOf t)⟩ = paragraphsOf t
  ∧ (t ≠ "" → formatParagraphs t = ⟨joinNl ((paragraphsOf t).map wrapPara)⟩) := by
  constructor
  · by_cases h0 : paragraphsOf t = []
    · rw [h0]
      decide
    · have hprops := paragraphsMemProps t
      have hnl : ∀ p ∈ paragraphsOf t, '\n' ∉ p := fun p hp => (hprops p hp).2.2
      have hsplit : splitNl (joinNl (paragraphsOf t)) = paragraphsOf t :=
        splitNlJoinNl _ h0 hnl
      calc paragraphsOf ⟨joinNl (paragraphsOf t)⟩
          = ((splitNl (joinNl (paragraphsOf t))).filter
              (fun p => trimChars p ≠ [])).map trimChars := rfl
        _ = ((paragraphsOf t).filter (fun p => trimChars p ≠ [])).map trimChars := by
              rw [hsplit]
        _ = paragraphsOf t :=
              filterMapTrimId _ (fun p hp => ⟨(hprops p hp).1, (hprops p hp).2.1⟩)
  · intro ht
    unfold formatParagraphs
    rw [if_neg ht]
    unfold paragraphsOf
    rw [List.map_map]
    rfl

/-- Claim C2 witness: the amended statement at a concrete input. -/
theorem paragraphSplitIdempotentWitness :
    formatParagraphs "a\nb" = ⟨joinNl ((paragraphsOf "a\nb").map wrapPara)⟩ :=
  (paragraphSplitIdempotent "a\nb").2 (by decide)

/-! ## Claim C5: asset embed failure behavior -/

/-- Claim C5 counterexample: a response with non-success HTTP status 404
still resolves, and the embed operation succeeds on it (the code never
inspects the response status), contradicting the claim that the embed
fails whenever the server returns a non-success status. -/
theorem nonSuccessStatusStillEmbeds :
    env404.fetch "https://img.example/cover"
      = Except.ok ⟨404, [60, 104, 116], "<html>Not Found</html>", "text/html"⟩
  ∧ (fetchAndEncodeImage env404 "https://img.example/cover").isOk = true := by
  constructor
  · decide
  · decide

/-- Claim C5 (amended): the embed operation fails exactly when the
underlying fetch itself rejects (source unreachable), and in that case
the same error propagates fatally to pack through the cover image; a
response with a non-success HTTP status is not detected — the embed
succeeds and returns the response body as the asset payload. -/
theorem fetchAndEncodeImageSpec (env : Env) (url : String) :
    (∀ e, env.fetch url = Except.error e →
      fetchAndEncodeImage env url = Except.error e)
  ∧ (∀ r, env.fetch url = Except.ok r →
      fetchAndEncodeImage env url
        = Except.ok ⟨r.body, r.blobType, extOfMime r.blobType⟩)
  ∧ (∀ e, env.fetch url = Except.error e → ∀ book : Book,
      book.coverImageUrl = url → generateEpub env book = Except.error e) := by
  refine ⟨fun e he => ?_, fun r hr => ?_, fun e he book hb => ?_⟩
  · simp [fetchAndEncodeImage, he, exceptBindError]
  · simp [fetchAndEncodeImage, hr, exceptBindOk]
  · simp [generateEpub, fetchAndEncodeImage, hb, he, exceptBindError]

/-- Claim C5 witness: a rejecting fetch makes the embed fail with the
same error. -/
theorem fetchAndEncodeImageSpecWitness :
    fetchAndEncodeImage envDown "https://img.example/cover"
      = Except.error "net::ERR_CONNECTION_REFUSED" :=
  (fetchAndEncodeImageSpec envDown "https://img.example/cover").1
    "net::ERR_CONNECTION_REFUSED" (by decide)

/-! ## Claim C4: chapter image fetch failure aborts pack -/

/-- Claim C4: if fetching any chapter image fails during pack, pack
rejects with a fetch error and produces no archive value at all; the
book record is an unmodified argument of this pure function, so it is
untouched for retry. -/
theorem packChapterFetchFailure (env : Env) (book : Book)
    (h : ∃ ch ∈ book.chapters, (env.fetch ch.imageUrl).isOk = false) :
    ∃ e, generateEpub env book = Except.error e := by
  cases hc : fetchAndEncodeImage env book.coverImageUrl with
  | error e => exact ⟨e, by simp [generateEpub, hc, exceptBindError]⟩
  | ok ci =>
    have hfail : ∃ ch ∈ book.chapters,
        ((fun ch => fetchAndEncodeImage env ch.imageUrl) ch).isOk = false := by
      obtain ⟨ch, hm, hf⟩ := h
      refine ⟨ch, hm, ?_⟩
      cases hfe : env.fetch ch.imageUrl with
      | error e => simp [fetchAndEncodeImage, hfe, exceptBindError, isOkError]
      | ok r => rw [hfe, isOkOk] at hf; exact absurd hf (by simp)
    obtain ⟨e, he⟩ := awaitAllError _ book.chapters hfail
    exact ⟨e, by simp [generateEpub, hc, he, exceptBindOk, exceptBindError]⟩

/-- Claim C4 witness: a two-chapter book whose first chapter image fetch
rejects while the second chapter and the cover succeed. -/
theorem packChapterFetchFailureWitness :
    ∃ e, generateEpub envCh1Down twoChapterBook = Except.error e :=
  packChapterFetchFailure envCh1Down twoChapterBook
    ⟨sampleChapterOne, by decide, by decide⟩

/-! ## Claim C6: font embedding is best-effort -/

/-- With the font source unreachable the try/catch yields no entries. -/
theorem tryEmbedFontsEmpty (env : Env) (book : Book)
    (hfont : (env.fetch book.theme.fontPairing.url).isOk = false) :
    tryEmbedFonts env book = [] := by
  cases hfe : env.fetch book.theme.fontPairing.url with
  | error e => simp [tryEmbedFonts, hfe, exceptBindError]
  | ok r => rw [hfe, isOkOk] at hfont; exact absurd hfont (by simp)

/-- pack succeeds whenever the cover fetch and every chapter fetch
succeed: the font substep cannot fail the call. -/
theorem generateEpubOk (env : Env) (book : Book)
    (hcover : (env.fetch book.coverImageUrl).isOk = true)
    (hch : ∀ ch ∈ book.chapters, (env.fetch ch.imageUrl).isOk = true) :
    ∃ ci infos, generateEpub env book
      = Except.ok (epubEntriesList env book ci infos) := by
  obtain ⟨r, hr⟩ : ∃ r, env.fetch book.coverImageUrl = Except.ok r := by
    cases hc : env.fetch book.coverImageUrl with
    | error e => rw [hc, isOkError] at hcover; exact absurd hcover (by simp)
    | ok r => exact ⟨r, rfl⟩
  have hci : fetchAndEncodeImage env book.coverImageUrl
      = Except.ok ⟨r.body, r.blobType, extOfMime r.blobType⟩ := by
    simp [fetchAndEncodeImage, hr, exceptBindOk]
  have hch2 : ∀ ch ∈ book.chapters,
      ((fun ch => fetchAndEncodeImage env ch.imageUrl) ch).isOk = true := by
    intro ch hm
    obtain ⟨r2, hr2⟩ : ∃ r2, env.fetch ch.imageUrl = Except.ok r2 := by
      cases hc2 : env.fetch ch.imageUrl with
      | error e =>
        have h3 := hch ch hm
        rw [hc2, isOkError] at h3
        exact absurd h3 (by simp)
      | ok r2 => exact ⟨r2, rfl⟩
    simp [fetchAndEncodeImage, hr2, exceptBindOk, isOkOk]
  obtain ⟨infos, hinfos⟩ := awaitAllOk _ book.chapters hch2
  exact ⟨⟨r.body, r.blobType, extOfMime r.blobType⟩, infos,
    by simp [generateEpub, hci, hinfos, exceptBindOk]⟩

/-- Claim C6: when the font source URL cannot be fetched, pack still
succeeds and emits the stylesheet entry, the stylesheet declares the
generic serif fallback for the body font family, the font substep
produces no entries; and font embedding is the only fetch substep
permitted to fail without rejecting — a successful pack implies the
cover fetch and every chapter fetch succeeded. -/
theorem packFontFailureFallback (env : Env) (book : Book)
    (hfont : (env.fetch book.theme.fontPairing.url).isOk = false)
    (hcover : (env.fetch book.coverImageUrl).isOk = true)
    (hch : ∀ ch ∈ book.chapters, (env.fetch ch.imageUrl).isOk = true) :
    (∃ es, generateEpub env book = Except.ok es
      ∧ ZipEntry.mk "OEBPS/css/style.css" (EntryData.text (styleCss book)) none ∈ es)
  ∧ tryEmbedFonts env book = []
  ∧ (∃ pre post, styleCss book
      = pre ++ ("\"" ++ book.theme.fontPairing.body ++ "\", serif") ++ post)
  ∧ (∀ (env2 : Env) (book2 : Book) (es2 : List ZipEntry),
      generateEpub env2 book2 = Except.ok es2 →
      (env2.fetch book2.coverImageUrl).isOk = true
        ∧ ∀ ch ∈ book2.chapters, (env2.fetch ch.imageUrl).isOk = true) := by
  refine ⟨?_, tryEmbedFontsEmpty env book hfont, ?_, ?_⟩
  · obtain ⟨ci, infos, hgen⟩ := generateEpubOk env book hcover hch
    refine ⟨epubEntriesList env book ci infos, hgen, ?_⟩
    simp [epubEntriesList, List.mem_append]
  · refine ⟨"\n        " ++ fontCss book ++ "\n        body \x7b font-family: ",
      "; line-height: 1.6; margin: 1em; \x7d\n        h1, h2, h3 \x7b font-family: \""
        ++ book.theme.fontPairing.heading
        ++ "\", sans-serif; text-align: center; line-height: 1.2; margin-top: 1.5em; margin-bottom: 1em; page-break-before: always; page-break-after: avoid; \x7d
        h1 \x7b font-size: 2.5em; \x7d
        h2 \x7b font-size: 2em; \x7d
        h3 \x7b font-size: 1.5em; text-align: left; \x7d
        p.para \x7b margin: 0 0 1em 0; text-align: justify; text-indent: 1.5em; \x7d
        img \x7b max-width: 100%; height: auto; display: block; margin: 1.5em auto; \x7d
        .cover-image \x7b width: 100%; height: auto; \x7d
        .title-page \x7b text-align: center; margin: 5em 0; page-break-before: always; \x7d
        .copyright-page \x7b font-size: 0.8em; color: #555; margin: 2em; page-break-before: always; \x7d
        .copyright-page p \x7b text-indent: 0; \x7d
        .dedication \x7b text-align: center; font-style: italic; margin: 10em 2em; page-break-before: always; \x7d
        .epigraph \x7b font-style: italic; color: #555; margin: 3em 2em 3em 2em; text-align: left; text-indent: 0; \x7d
        .toc \x7b list-style-type: none; padding: 0; \x7d
        .toc li a \x7b text-decoration: none; color: inherit; \x7d
        .character-profile \x7b margin-bottom: 1.5em; \x7d
        .character-profile h3 \x7b margin-bottom: 0.25em; \x7d
        .character-profile p \x7b text-indent: 0 !important; \x7d
    ", ?_⟩
    simp only [styleCss, strAppendAssoc]
  · intro env2 book2 es2 h2
    constructor
    · cases hc2 : env2.fetch book2.coverImageUrl with
      | ok r => rfl
      | error e =>
        have h3 : generateEpub env2 book2 = Except.error e := by
          simp [generateEpub, fetchAndEncodeImage, hc2, exceptBindError]
        rw [h3] at h2
        exact absurd h2 (by simp)
    · cases hc2 : fetchAndEncodeImage env2 book2.coverImageUrl with
      | error e =>
        have h3 : generateEpub env2 book2 = Except.error e := by
          simp [generateEpub, hc2, exceptBindError]
        rw [h3] at h2
        exact absurd h2 (by simp)
      | ok ci =>
        cases ha : awaitAll (fun ch => fetchAndEncodeImage env2 ch.imageUrl)
            book2.chapters with
        | error e =>
          have h3 : generateEpub env2 book2 = Except.error e := by
            simp [generateEpub, hc2, ha, exceptBindOk, exceptBindError]
          rw [h3] at h2
          exact absurd h2 (by simp)
        | ok infos =>
          intro ch hm
          have hfa := awaitAllOkForall _ book2.chapters infos ha ch hm
          cases hfe : env2.fetch ch.imageUrl with
          | ok r => rfl
          | error e =>
            have h4 : fetchAndEncodeImage env2 ch.imageUrl = Except.error e := by
              simp [fetchAndEncodeImage, hfe, exceptBindError]
            rw [h4, isOkError] at hfa
            exact absurd hfa (by simp)

/-- Claim C6 witness: with the font URL unreachable and all images
fetchable, the font substep yields no entries. -/
theorem packFontFailureFallbackWitness :
    tryEmbedFonts envFontDown emptyBook = [] :=
  (packFontFailureFallback envFontDown emptyBook (by decide) (by decide)
    (by decide)).2.1

/-! ## Claim C7: the mimetype entry -/

/-- Claim C7: whenever pack produces an archive, the first entry is
named exactly `mimetype`, its content is exactly the text
`application/epub+zip`, and it carries the explicit STORE (stored
without compression) option. -/
theorem mimetypeEntryFirst (env : Env) (book : Book) (es : List ZipEntry)
    (h : generateEpub env book = Except.ok es) :
    es.head? = some ⟨"mimetype", EntryData.text "application/epub+zip",
      some Compression.store⟩ := by
  cases hc : fetchAndEncodeImage env book.coverImageUrl with
  | error e =>
    have h3 : generateEpub env book = Except.error e := by
      simp [generateEpub, hc, exceptBindError]
    rw [h3] at h
    exact absurd h (by simp)
  | ok ci =>
    cases ha : awaitAll (fun ch => fetchAndEncodeImage env ch.imageUrl)
        book.chapters with
    | error e =>
      have h3 : generateEpub env book = Except.error e := by
        simp [generateEpub, hc, ha, exceptBindOk, exceptBindError]
      rw [h3] at h
      exact absurd h (by simp)
    | ok infos =>
      have h3 : generateEpub env book
          = Except.ok (epubEntriesList env book ci infos) := by
        simp [generateEpub, hc, ha, exceptBindOk]
      rw [h3] at h
      have hes : es = epubEntriesList env book ci infos := by
        injection h with h1
        exact h1.symm
      subst hes
      rfl

/-- Claim C7 witness: a concrete successful pack whose archive starts
with the mimetype entry. -/
theorem mimetypeEntryFirstWitness :
    ∃ es, generateEpub envAllOk emptyBook = Except.ok es
      ∧ es.head? = some ⟨"mimetype", EntryData.text "application/epub+zip",
          some Compression.store⟩ := by
  cases h : generateEpub envAllOk emptyBook with
  | error e =>
    have hOk : (generateEpub envAllOk emptyBook).isOk = true := by decide
    rw [h, isOkError] at hOk
    exact absurd hOk (by decide)
  | ok es => exact ⟨es, rfl, mimetypeEntryFirst envAllOk emptyBook es h⟩

/-! ## Claim C9: sequential rasterization -/

/-- The capture trace is always an initial segment of the page sequence:
pages are captured one at a time, in order, never past a failure. -/
theorem captureTraceInitial {α : Type} (capture : Page → Except String α) :
    ∀ ps : List Page, ∃ rest, captureTrace capture ps ++ rest = ps := by
  intro ps
  induction ps with
  | nil => exact ⟨[], rfl⟩
  | cons p ps ih =>
    unfold captureTrace
    cases hc : capture p with
    | ok a =>
      obtain ⟨r, hr⟩ := ih
      exact ⟨r, by simp [hr]⟩
    | error e => exact ⟨ps, rfl⟩

/-- A successful render captures every page exactly once, in order, and
yields one image per page. -/
theorem renderPagesOkSpec {α : Type} (capture : Page → Except String α) :
    ∀ (ps : List Page) (imgs : List α),
      renderPages capture ps = Except.ok imgs →
      captureTrace capture ps = ps ∧ imgs.length = ps.length := by
  intro ps
  induction ps with
  | nil =>
    intro imgs h
    simp only [renderPages] at h
    injection h with h1
    subst h1
    exact ⟨rfl, rfl⟩
  | cons p ps ih =>
    intro imgs h
    rw [renderPages] at h
    cases hc : capture p with
    | error e => rw [hc, exceptBindError] at h; exact absurd h (by simp)
    | ok a =>
      rw [hc, exceptBindOk] at h
      cases hr : renderPages capture ps with
      | error e => rw [hr, exceptBindError] at h; exact absurd h (by simp)
      | ok rest =>
        rw [hr, exceptBindOk] at h
        injection h with h1
        subst h1
        obtain ⟨ht, hl⟩ := ih rest hr
        constructor
        · rw [captureTrace, hc, ht]
        · simp [hl]

/-- Claim C9: the rasterization driver invokes the capture operation at
most once per page and strictly in page-sequence order (the invocation
trace is an initial segment of the layout); a fully successful render
captured every page exactly once in order and produced one image per
page; and if any single capture throws, the paginated-document artifact
is never saved and the caller receives exactly one error message. -/
theorem rasterSequential (α : Type) (capture : Page → Except String α)
    (book : Book) :
    (∃ rest, captureTrace capture (layout book) ++ rest = layout book)
  ∧ (∀ imgs, renderPages capture (layout book) = Except.ok imgs →
      captureTrace capture (layout book) = layout book
        ∧ imgs.length = (layout book).length)
  ∧ (∀ e, renderPages capture (layout book) = Except.error e →
      handleDownloadPdf capture book
        = { savedFile := none, errorMessage := some pdfErrorMessage }) := by
  refine ⟨captureTraceInitial capture (layout book),
    fun imgs h => renderPagesOkSpec capture (layout book) imgs h,
    fun e he => ?_⟩
  unfold handleDownloadPdf
  rw [he]

/-- Claim C9 witness: a capture that throws on the third page of a
six-page layout saves nothing and reports exactly one error. -/
theorem rasterSequentialWitness :
    renderPages captureFailToc (layout emptyBook) = Except.error "canvas error"
  ∧ handleDownloadPdf captureFailToc emptyBook
      = { savedFile := none, errorMessage := some pdfErrorMessage } := by
  constructor
  · decide
  · exact (rasterSequential Nat captureFailToc emptyBook).2.2 "canvas error"
      (by decide)

/-! ## Claim C10: the chapter update is frame-preserving -/

/-- Claim C10: updating chapter i of a book changes only the supplied
fields of chapter i — every non-chapter field of the book, the chapter
count, and every other chapter are unchanged; chapter i becomes the old
chapter overridden by exactly the supplied fields (absent patch fields
keep the old value, present ones take the new value). -/
theorem updateChapterFrame (book : Book) (i : Nat) (p : ChapterPatch)
    (h : i < book.chapters.length) :
    (updateChapterInBook book i p).title = book.title
  ∧ (updateChapterInBook book i p).author = book.author
  ∧ (updateChapterInBook book i p).publisher = book.publisher
  ∧ (updateChapterInBook book i p).plotSummary = book.plotSummary
  ∧ (updateChapterInBook book i p).preface = book.preface
  ∧ (updateChapterInBook book i p).dedication = book.dedication
  ∧ (updateChapterInBook book i p).mainCharacters = book.mainCharacters
  ∧ (updateChapterInBook book i p).coverImageUrl = book.coverImageUrl
  ∧ (updateChapterInBook book i p).coverPrompt = book.coverPrompt
  ∧ (updateChapterInBook book i p).backCoverBlurb = book.backCoverBlurb
  ∧ (updateChapterInBook book i p).theme = book.theme
  ∧ (updateChapterInBook book i p).kdpKeywords = book.kdpKeywords
  ∧ (updateChapterInBook book i p).kdpCategories = book.kdpCategories
  ∧ (updateChapterInBook book i p).chapters.length = book.chapters.length
  ∧ (∀ j, j ≠ i →
      (updateChapterInBook book i p).chapters[j]? = book.chapters[j]?)
  ∧ (updateChapterInBook book i p).chapters[i]?
      = some (applyPatch book.chapters[i] p)
  ∧ (∀ ch : Chapter,
      (p.title = none → (applyPatch ch p).title = ch.title)
    ∧ (p.summary = none → (applyPatch ch p).summary = ch.summary)
    ∧ (p.imagePrompt = none → (applyPatch ch p).imagePrompt = ch.imagePrompt)
    ∧ (p.epigraph = none → (applyPatch ch p).epigraph = ch.epigraph)
    ∧ (p.content = none → (applyPatch ch p).content = ch.content)
    ∧ (p.imageUrl = none → (applyPatch ch p).imageUrl = ch.imageUrl)
    ∧ (∀ v, p.title = some v → (applyPatch ch p).title = v)
    ∧ (∀ v, p.summary = some v → (applyPatch ch p).summary = v)
    ∧ (∀ v, p.imagePrompt = some v → (applyPatch ch p).imagePrompt = v)
    ∧ (∀ v, p.epigraph = some v → (applyPatch ch p).epigraph = v)
    ∧ (∀ v, p.content = some v → (applyPatch ch p).content = v)
    ∧ (∀ v, p.imageUrl = some v → (applyPatch ch p).imageUrl = v)) := by
  refine ⟨rfl, rfl, rfl, rfl, rfl, rfl, rfl, rfl, rfl, rfl, rfl, rfl, rfl,
    ?_, ?_, ?_, ?_⟩
  · simp [updateChapterInBook]
  · intro j hj
    simp only [updateChapterInBook]
    rw [List.getElem?_set]
    rw [if_neg (fun hc => hj hc.symm)]
  · simp only [updateChapterInBook]
    rw [List.getElem?_set, if_pos rfl, if_pos h]
    have hd : book.chapters.getD i ⟨"", "", "", "", "", ""⟩ = book.chapters[i] := by
      simp [List.getD, List.getElem?_eq_getElem h]
    rw [hd]
  · intro ch
    refine ⟨?_, ?_, ?_, ?_, ?_, ?_, ?_, ?_, ?_, ?_, ?_, ?_⟩ <;>
      first
        | (intro hp; simp [applyPatch, hp])
        | (intro v hp; simp [applyPatch, hp])

/-- Claim C10 witness: a concrete in-range update. -/
theorem updateChapterFrameWitness :
    0 < twoChapterBook.chapters.length
  ∧ (updateChapterInBook twoChapterBook 0 samplePatch).title
      = twoChapterBook.title :=
  ⟨by decide, (updateChapterFrame twoChapterBook 0 samplePatch (by decide)).1⟩

end BookCraft
